import Mathlib

/-!
# Verification of the real-time voice capture and streaming client

Shallow embedding of `src/components/VoiceControl.tsx` (qu-nebulea).
The React component's mutable refs become fields of `AudioState`; each
callback becomes a pure state-transformer that additionally returns the
wire messages it sends and the log entries it emits.  Machine time
(`Date.now()`) is passed in explicitly as a natural-number timestamp in
milliseconds.  Audio samples and RMS energies are modelled as exact
rationals (the source uses JS doubles); the per-frame RMS value is taken
as an input of the frame step, matching the spec's "per-frame energies"
(the square root in the RMS computation is irrational, so the smoothing
window is modelled directly over the energy values the Frame Processor
produces).
-/

namespace QuNebulea

/-- Log severity, from the `LogEntry` interface in VoiceControl.tsx. -/
inductive LogType where
  | info
  | success
  | warning
  | error
deriving DecidableEq, Repr

/-- A log entry: message text plus severity (timestamps are not modelled). -/
structure LogEntry where
  message : String
  type : LogType
deriving DecidableEq, Repr

/-- Outbound wire messages of the protocol client.  `append` carries the
decoded 16-bit PCM payload (the base64 encoding is a bijection and is not
modelled). -/
inductive WireMsg where
  | append (audio : List ℤ)
  | commit
  | clear
deriving DecidableEq, Repr

/-- The `AudioConfig` react state (serverUrl omitted: never read by the
logic modelled here).  `chunkSize` is the chunk interval in ms,
`audioQuality` the sample rate in Hz. -/
structure Config where
  chunkSize : ℕ
  audioQuality : ℕ
  silenceThreshold : ℚ
  autoCommitDelay : ℕ
deriving DecidableEq, Repr

/-- The component's mutable refs and the react state bits the audio logic
reads/writes.  `wsOpen` models `wsRef.current !== null &&
wsRef.current.readyState === WebSocket.OPEN` together with `isConnected`;
`audioBuffer` holds the not-yet-truncated PCM values (JS pushes
`sample * 32767` as a double; truncation to Int16 happens in
`sendAudioChunk`). -/
structure AudioState where
  wsOpen : Bool
  isRecording : Bool
  isSleeping : Bool
  isProcessingAudio : Bool
  audioBuffer : List ℚ
  silenceBuffer : List ℚ
  lastSpeechTime : ℕ
  hasSpeechInBuffer : Bool
  sessionInfo : Option (String × String)
  chunkCounter : ℕ
  totalBytes : ℕ
  latencySum : ℕ
  latencyCount : ℕ
  transcription : String
deriving DecidableEq, Repr

/-- One frame delivered by the capture source: the Frame Processor's RMS
energy for the frame together with the raw normalized samples. -/
structure Frame where
  rms : ℚ
  samples : List ℚ
deriving DecidableEq, Repr

/-- Result of a state-transforming callback: new state, wire messages
sent, log entries emitted (in order). -/
structure StepOut where
  state : AudioState
  msgs : List WireMsg
  logs : List LogEntry
deriving DecidableEq, Repr

/-- The constant `silenceDetectionWindow = 10` (VoiceControl.tsx line 86). -/
def silenceDetectionWindow : ℕ := 10

/-- Truncation toward zero, as JS `ToIntegerOrInfinity` does on a finite
double. -/
def truncRat (q : ℚ) : ℤ :=
  if 0 ≤ q then ⌊q⌋ else ⌈q⌉

/-- JS `ToInt16` conversion performed by `new Int16Array(pcmData)`:
truncate toward zero, reduce mod 2^16 into [0, 2^16), then map the upper
half to negative values. -/
def toInt16 (q : ℚ) : ℤ :=
  let m := truncRat q % 65536
  if 32768 ≤ m then m - 65536 else m

/-- The float→PCM conversion loop of `processAudioData` (lines 220-225):
clamp each sample to [-1,1] then scale by 32767.  The result is kept as a
rational: the source pushes the unrounded product into `audioBufferRef`. -/
def floatToPcm16 (samples : List ℚ) : List ℚ :=
  samples.map (fun x => max (-1) (min 1 x) * 32767)

/-- Embeds `setSleeping` (lines 167-176): writes the ref and logs only when the
value actually changes. -/
def setSleeping (s : AudioState) (sleeping : Bool) : AudioState × List LogEntry :=
  if s.isSleeping ≠ sleeping then
    ({ s with isSleeping := sleeping },
     if sleeping then
       [⟨"Entering sleep mode due to prolonged silence", LogType.info⟩]
     else
       [⟨"Waking up from sleep mode", LogType.info⟩])
  else (s, [])

/-- Embeds `setProcessing` (lines 178-188): writes the ref and logs only when the
value actually changes; entering processing also replaces the displayed
transcription. -/
def setProcessing (s : AudioState) (processing : Bool) : AudioState × List LogEntry :=
  if s.isProcessingAudio ≠ processing then
    if processing then
      ({ s with isProcessingAudio := true, transcription := "Processing audio..." },
       [⟨"Entering processing mode - pausing audio capture", LogType.info⟩])
    else
      ({ s with isProcessingAudio := false },
       [⟨"Exiting processing mode - resuming audio capture", LogType.info⟩])
  else (s, [])

/-- Embeds `sendAudioChunk` (lines 605-630): early-return unless the socket is
open and not processing; otherwise truncate to Int16, send one append
message, and bump the chunk/byte counters (2 bytes per sample). -/
def sendAudioChunk (s : AudioState) (pcmData : List ℚ) : AudioState × List WireMsg :=
  if s.wsOpen = false ∨ s.isProcessingAudio = true then (s, [])
  else
    let int16Data := pcmData.map toInt16
    ({ s with
        chunkCounter := s.chunkCounter + 1,
        totalBytes := s.totalBytes + 2 * int16Data.length },
     [WireMsg.append int16Data])

/-- Embeds `commitAudioBuffer` (lines 632-662).  Guard 1: warn if not connected
or already processing.  Guard 2: warn if the buffer is empty.  Otherwise
the whole buffer is spliced out and sent as a final append, the commit
event is sent, processing mode is entered and the speech-seen flag is
cleared. -/
def commitAudioBuffer (s : AudioState) : StepOut :=
  if s.wsOpen = false ∨ s.isProcessingAudio = true then
    { state := s, msgs := [],
      logs := [⟨"Cannot commit: not connected or already processing", LogType.warning⟩] }
  else if s.audioBuffer.length = 0 then
    { state := s, msgs := [],
      logs := [⟨"No audio data to commit", LogType.warning⟩] }
  else
    let chunk := s.audioBuffer
    let s1 := { s with audioBuffer := [] }
    let sent := sendAudioChunk s1 chunk
    let p := setProcessing sent.1 true
    { state := { p.1 with hasSpeechInBuffer := false },
      msgs := sent.2 ++ [WireMsg.commit],
      logs := ⟨"Audio buffer committed for transcription", LogType.info⟩ :: p.2 }

/-- The log line emitted when auto-commit fires (line 155). -/
def autoCommitMsg (delay : ℕ) : String :=
  "Auto-committing after " ++ toString delay ++ "ms of silence"

/-- Result of `detectSilence`: updated state plus the raw return value
`{isSilent, avgRms, timeSinceLastSpeech}`; `autoCommitFired` records
whether the auto-commit branch (line 155-156) was taken. -/
structure DetectOut where
  state : AudioState
  msgs : List WireMsg
  logs : List LogEntry
  autoCommitFired : Bool
  isSilent : Bool
  avgRms : ℚ
  timeSinceLastSpeech : ℤ
deriving DecidableEq, Repr

/-- The push-then-shift window update of `detectSilence` (lines 131-134):
append the new RMS value, and drop the oldest one when the window would
exceed `silenceDetectionWindow`. -/
def slideWindow (w : List ℚ) (rms : ℚ) : List ℚ :=
  if silenceDetectionWindow < (w ++ [rms]).length then (w ++ [rms]).tail
  else w ++ [rms]

/-- Embeds `detectSilence` (lines 128-165).  The frame's RMS is pushed into the
sliding window (oldest dropped beyond `silenceDetectionWindow`); the mean
of the window is compared against the threshold.  On speech: reset the
speech clock, flag speech, wake up.  On silence: auto-commit when the
delay is positive, elapsed, speech was seen and not processing; otherwise
go to sleep after 1000 ms when no speech was seen. -/
def detectSilence (cfg : Config) (s : AudioState) (rms : ℚ) (now : ℕ) : DetectOut :=
  let buf := slideWindow s.silenceBuffer rms
  let s1 := { s with silenceBuffer := buf }
  let avgRms := buf.sum / (buf.length : ℚ)
  let tsls : ℤ := (now : ℤ) - (s1.lastSpeechTime : ℤ)
  if avgRms < cfg.silenceThreshold then
    if 0 < cfg.autoCommitDelay ∧ (cfg.autoCommitDelay : ℤ) ≤ tsls ∧
        s1.hasSpeechInBuffer = true ∧ s1.isProcessingAudio = false then
      let c := commitAudioBuffer s1
      { state := c.state, msgs := c.msgs,
        logs := ⟨autoCommitMsg cfg.autoCommitDelay, LogType.info⟩ :: c.logs,
        autoCommitFired := true, isSilent := true, avgRms := avgRms,
        timeSinceLastSpeech := tsls }
    else if (1000 : ℤ) ≤ tsls ∧ s1.hasSpeechInBuffer = false then
      let p := setSleeping s1 true
      { state := p.1, msgs := [], logs := p.2,
        autoCommitFired := false, isSilent := true, avgRms := avgRms,
        timeSinceLastSpeech := tsls }
    else
      { state := s1, msgs := [], logs := [],
        autoCommitFired := false, isSilent := true, avgRms := avgRms,
        timeSinceLastSpeech := tsls }
  else
    let s2 := { s1 with lastSpeechTime := now, hasSpeechInBuffer := true }
    let p := setSleeping s2 false
    { state := p.1, msgs := [], logs := p.2,
      autoCommitFired := false, isSilent := false, avgRms := avgRms,
      timeSinceLastSpeech := tsls }

/-- Embeds `processAudioData` (lines 210-234): run silence detection, then skip
audio buffering entirely when in sleep or processing mode; otherwise
convert the frame to PCM and append it to the buffer. -/
def processAudioData (cfg : Config) (s : AudioState) (f : Frame) (now : ℕ) : StepOut :=
  let d := detectSilence cfg s f.rms now
  if d.state.isSleeping = true ∨ d.state.isProcessingAudio = true then
    { state := d.state, msgs := d.msgs, logs := d.logs }
  else
    let pcmData := floatToPcm16 f.samples
    { state := { d.state with audioBuffer := d.state.audioBuffer ++ pcmData },
      msgs := d.msgs, logs := d.logs }

/-- The AudioWorklet `port.onmessage` gate (lines 486-492): a delivered
frame reaches `processAudioData` only while recording and not in
processing mode (the AnalyserNode fallback, lines 524-534, applies the
same two checks). -/
def onAudioFrame (cfg : Config) (s : AudioState) (f : Frame) (now : ℕ) : StepOut :=
  if s.isRecording = true ∧ s.isProcessingAudio = false then
    processAudioData cfg s f now
  else
    { state := s, msgs := [], logs := [] }

/-- Inbound server messages, from the `switch` in `handleServerMessage`.
`responseDone` carries the transcript text of the first output item when
present. -/
inductive ServerMsg where
  | sessionCreated (id : String) (model : Option String)
  | sessionUpdated
  | bufferCommitted
  | responseCreated (id : String)
  | responseAudioDelta
  | responseDone (text : Option String)
  | errorMsg (message : String)
  | unknown (msgType : String)
deriving DecidableEq, Repr

/-- The `message.type` string, for the "Received: ..." log line. -/
def msgTypeName : ServerMsg → String
  | ServerMsg.sessionCreated _ _ => "session.created"
  | ServerMsg.sessionUpdated => "session.updated"
  | ServerMsg.bufferCommitted => "input_audio_buffer.committed"
  | ServerMsg.responseCreated _ => "response.created"
  | ServerMsg.responseAudioDelta => "response.audio.delta"
  | ServerMsg.responseDone _ => "response.done"
  | ServerMsg.errorMsg _ => "error"
  | ServerMsg.unknown t => t

/-- Embeds `handleServerMessage` (lines 236-307).  `entryTime` is the
`Date.now()` captured at the top of the handler (`startTime`, line 237);
`nowAtDone` is the `Date.now()` evaluated inside the `response.done`
branch (line 268).  Note the published latency is
`nowAtDone - entryTime`: the handler never consults the time at which the
commit was sent. -/
def handleServerMessage (s : AudioState) (msg : ServerMsg)
    (entryTime nowAtDone : ℕ) : AudioState × List LogEntry :=
  let received : LogEntry := ⟨"Received: " ++ msgTypeName msg, LogType.info⟩
  match msg with
  | ServerMsg.sessionCreated id model =>
      ({ s with sessionInfo := some (id, model.getD "Whisper") },
       [received, ⟨"Session created: " ++ id, LogType.success⟩])
  | ServerMsg.sessionUpdated =>
      (s, [received, ⟨"Session configuration updated", LogType.success⟩])
  | ServerMsg.bufferCommitted =>
      let p := setProcessing s true
      (p.1, received :: ⟨"Audio buffer committed for processing", LogType.success⟩ :: p.2)
  | ServerMsg.responseCreated id =>
      (s, [received, ⟨"Response created: " ++ id, LogType.success⟩])
  | ServerMsg.responseAudioDelta =>
      (s, [received, ⟨"Received audio response delta", LogType.info⟩])
  | ServerMsg.responseDone text =>
      let responseTime := nowAtDone - entryTime
      let s1 := { s with
        latencySum := s.latencySum + responseTime,
        latencyCount := s.latencyCount + 1 }
      let p := setProcessing s1 false
      let s2 := { p.1 with hasSpeechInBuffer := false }
      let s3 := match text with
        | some t => { s2 with transcription := t }
        | none => s2
      (s3, received :: p.2 ++
        [⟨"Transcription completed in " ++ toString responseTime ++ "ms", LogType.success⟩])
  | ServerMsg.errorMsg m =>
      let p := setProcessing s false
      (p.1, received :: ⟨"Server error: " ++ m, LogType.error⟩ :: p.2)
  | ServerMsg.unknown t =>
      (s, [received, ⟨"Unknown message type: " ++ t, LogType.warning⟩])

/-- Embeds `clearAudioBuffer` (lines 664-684): silently a no-op when the socket
is not open; otherwise reset the buffer and the speech-seen flag, send
the clear event, log at info level, and exit processing mode if active. -/
def clearAudioBuffer (s : AudioState) : StepOut :=
  if s.wsOpen = false then
    { state := s, msgs := [], logs := [] }
  else
    let s1 := { s with audioBuffer := [], hasSpeechInBuffer := false }
    let p := if s1.isProcessingAudio = true then setProcessing s1 false else (s1, [])
    { state := p.1, msgs := [WireMsg.clear],
      logs := ⟨"Audio buffer cleared", LogType.info⟩ :: p.2 }

/-- Embeds `disconnect` (lines 379-396): close the socket, stop capture, and
reset the recording/processing/sleeping flags.  The session identity
(`sessionIdRef` / `sessionInfo`) is not touched. -/
def disconnect (s : AudioState) : AudioState × List LogEntry :=
  let s1 := { s with wsOpen := false, isRecording := false }
  let p := setProcessing s1 false
  let q := setSleeping p.1 false
  (q.1, p.2 ++ q.2)

/-- The WebSocket `onclose` handler (lines 362-367): connection loss
resets the connected/recording/processing flags and logs a warning.  The
session identity is not touched and no reconnect is attempted. -/
def onConnectionClose (s : AudioState) : AudioState × List LogEntry :=
  let s1 := { s with wsOpen := false, isRecording := false }
  let p := setProcessing s1 false
  (p.1, p.2 ++ [⟨"Connection closed", LogType.warning⟩])

/-- The chunk size `samplesPerChunk = Math.floor(sampleRate * chunkIntervalMs / 1000)`
(line 580); exact for naturals. -/
def samplesPerChunk (cfg : Config) : ℕ :=
  cfg.audioQuality * cfg.chunkSize / 1000

/-- One firing of the self-rescheduling `sendChunk` timer inside
`startAudioChunking` (lines 582-599): while recording, drain one chunk
when neither processing nor sleeping and enough samples are buffered,
then compute the adaptive next interval (returned as `some interval`;
`none` means the loop stops because recording ended). -/
def sendChunkTick (cfg : Config) (s : AudioState) : AudioState × List WireMsg × Option ℕ :=
  if s.isRecording = true then
    let n := samplesPerChunk cfg
    let step :=
      if s.isProcessingAudio = false ∧ s.isSleeping = false ∧ n ≤ s.audioBuffer.length then
        sendAudioChunk { s with audioBuffer := s.audioBuffer.drop n } (s.audioBuffer.take n)
      else (s, [])
    let nextInterval :=
      if step.1.isSleeping = true then max (cfg.chunkSize * 4) 1000
      else if step.1.isProcessingAudio = true then min cfg.chunkSize 100
      else cfg.chunkSize
    (step.1, step.2, some nextInterval)
  else (s, [], none)

/-- Run a list of timestamped frames through `onAudioFrame`, collecting
all emitted log entries. -/
def runFrames (cfg : Config) (s : AudioState) : List (Frame × ℕ) → AudioState × List LogEntry
  | [] => (s, [])
  | (f, now) :: rest =>
      let o := onAudioFrame cfg s f now
      let r := runFrames cfg o.state rest
      (r.1, o.logs ++ r.2)

/-- Number of transitions into sleep mode recorded in a log stream: the
"Entering sleep mode" line is emitted exactly when `isSleeping` flips
from false to true. -/
def countSleepEntries (logs : List LogEntry) : ℕ :=
  (logs.filter (fun l => l.message = "Entering sleep mode due to prolonged silence")).length

/-- Invariant of a run of purely-silent frames: recording, not
processing, no speech flagged, and every energy in the smoothing window
below the threshold. -/
def SilentRun (cfg : Config) (s : AudioState) : Prop :=
  s.isRecording = true ∧ s.isProcessingAudio = false ∧
  s.hasSpeechInBuffer = false ∧
  ∀ x ∈ s.silenceBuffer, x < cfg.silenceThreshold

/-- A typical configuration (the component's defaults: 250 ms chunks,
16 kHz, threshold 0.005, auto-commit 1500 ms). -/
def baseConfig : Config :=
  { chunkSize := 250, audioQuality := 16000,
    silenceThreshold := 1/200, autoCommitDelay := 1500 }

/-- A connected, recording, idle state used to instantiate theorems. -/
def baseState : AudioState :=
  { wsOpen := true, isRecording := true, isSleeping := false,
    isProcessingAudio := false, audioBuffer := [], silenceBuffer := [],
    lastSpeechTime := 0, hasSpeechInBuffer := false, sessionInfo := none,
    chunkCounter := 0, totalBytes := 0, latencySum := 0, latencyCount := 0,
    transcription := "Ready to receive transcriptions..." }

/-! ## Preservation lemmas -/

lemma setSleeping_silenceBuffer (s : AudioState) (b : Bool) :
    (setSleeping s b).1.silenceBuffer = s.silenceBuffer := by
  unfold setSleeping; split <;> rfl

lemma setProcessing_silenceBuffer (s : AudioState) (b : Bool) :
    (setProcessing s b).1.silenceBuffer = s.silenceBuffer := by
  unfold setProcessing; split <;> [skip; rfl]; split <;> rfl

lemma sendAudioChunk_silenceBuffer (s : AudioState) (pcm : List ℚ) :
    (sendAudioChunk s pcm).1.silenceBuffer = s.silenceBuffer := by
  unfold sendAudioChunk; split <;> rfl

lemma commitAudioBuffer_silenceBuffer (s : AudioState) :
    (commitAudioBuffer s).state.silenceBuffer = s.silenceBuffer := by
  unfold commitAudioBuffer
  split
  · rfl
  · split
    · rfl
    · simp only [setProcessing_silenceBuffer, sendAudioChunk_silenceBuffer]

/-- The wire messages sent by `sendAudioChunk`, in closed form. -/
lemma sendAudioChunk_msgs (s : AudioState) (pcm : List ℚ) :
    (sendAudioChunk s pcm).2 =
      if s.wsOpen = false ∨ s.isProcessingAudio = true then []
      else [WireMsg.append (pcm.map toInt16)] := by
  unfold sendAudioChunk; split <;> rfl

/-! ## C9 — the energy window never exceeds `silenceDetectionWindow` -/

lemma detectSilence_silenceBuffer (cfg : Config) (s : AudioState) (rms : ℚ) (now : ℕ) :
    (detectSilence cfg s rms now).state.silenceBuffer =
      slideWindow s.silenceBuffer rms := by
  simp only [detectSilence]
  split_ifs <;>
    simp [commitAudioBuffer_silenceBuffer, setSleeping_silenceBuffer]

/-- C9: starting from a window of length at most `silenceDetectionWindow`
(= 10), processing one frame leaves the window at length at most 10: the
frame's RMS is appended and, on overflow, the oldest value is dropped. -/
theorem C9_energy_window_bounded (cfg : Config) (s : AudioState) (rms : ℚ) (now : ℕ)
    (h : s.silenceBuffer.length ≤ silenceDetectionWindow) :
    (detectSilence cfg s rms now).state.silenceBuffer.length ≤ silenceDetectionWindow ∧
    (detectSilence cfg s rms now).state.silenceBuffer =
      (if silenceDetectionWindow < (s.silenceBuffer ++ [rms]).length
       then (s.silenceBuffer ++ [rms]).tail else s.silenceBuffer ++ [rms]) := by
  rw [detectSilence_silenceBuffer cfg s rms now]
  refine ⟨?_, by rw [slideWindow]⟩
  rw [slideWindow]
  split <;> simp_all [List.length_tail, silenceDetectionWindow]

/-- Witness for C9 at a full window of ten zero energies. -/
theorem C9_energy_window_bounded_witness :
    (List.replicate 10 (0 : ℚ)).length ≤ silenceDetectionWindow ∧
    (detectSilence baseConfig { baseState with silenceBuffer := List.replicate 10 0 }
        (1 : ℚ) 0).state.silenceBuffer.length ≤ silenceDetectionWindow := by
  refine ⟨by decide, ?_⟩
  exact (C9_energy_window_bounded baseConfig
    { baseState with silenceBuffer := List.replicate 10 0 } 1 0 (by decide)).1

/-! ## C10 — produced PCM values lie in [-32767, 32767] -/

lemma truncRat_bounds {q : ℚ} {B : ℤ} (h1 : -(B : ℚ) ≤ q) (h2 : q ≤ (B : ℚ)) :
    -B ≤ truncRat q ∧ truncRat q ≤ B := by
  have hB : (0 : ℤ) ≤ B := by
    by_contra hc
    push_neg at hc
    have : (B : ℚ) < 0 := by exact_mod_cast hc
    linarith
  unfold truncRat
  split
  · constructor
    · have h0 : (0 : ℤ) ≤ ⌊q⌋ := Int.floor_nonneg.mpr (by assumption)
      omega
    · have := Int.floor_le_floor h2
      rwa [show ⌊(B : ℚ)⌋ = B from Int.floor_intCast B] at this
  · constructor
    · have := Int.ceil_le_ceil h1
      rwa [show ⌈-(B : ℚ)⌉ = -B by rw [← Int.cast_neg, Int.ceil_intCast]] at this
    · have hq : q ≤ 0 := le_of_lt (lt_of_not_le (by assumption))
      have hc0 : ⌈q⌉ ≤ (0 : ℤ) := Int.ceil_le.mpr (by exact_mod_cast hq)
      omega

lemma toInt16_eq_of_bounds {q : ℚ} (h1 : -(32767 : ℚ) ≤ q) (h2 : q ≤ (32767 : ℚ)) :
    toInt16 q = truncRat q := by
  have hb : -(32767 : ℤ) ≤ truncRat q ∧ truncRat q ≤ (32767 : ℤ) := by
    refine truncRat_bounds ?_ ?_ <;> push_cast <;> linarith
  obtain ⟨hl, hr⟩ := hb
  simp only [toInt16]
  split_ifs <;> omega

/-- C10: every Int16 value obtained (at transmission time) from a sample
that went through the clamp-and-scale conversion lies in [-32767, 32767];
in particular -32768 is never produced. -/
theorem C10_pcm_range (samples : List ℚ) (q : ℚ) (hq : q ∈ floatToPcm16 samples) :
    -32767 ≤ toInt16 q ∧ toInt16 q ≤ 32767 ∧ toInt16 q ≠ -32768 := by
  rcases List.mem_map.mp hq with ⟨y, _, rfl⟩
  have h1 : (-1 : ℚ) ≤ max (-1) (min 1 y) := le_max_left _ _
  have h2 : max (-1) (min 1 y) ≤ 1 := max_le (by norm_num) (min_le_left _ _)
  have hq1 : -(32767 : ℚ) ≤ max (-1) (min 1 y) * 32767 := by nlinarith
  have hq2 : max (-1) (min 1 y) * 32767 ≤ (32767 : ℚ) := by nlinarith
  rw [toInt16_eq_of_bounds hq1 hq2]
  have hb := truncRat_bounds (q := max (-1) (min 1 y) * 32767) (B := 32767)
    (by push_cast; linarith) (by push_cast; linarith)
  exact ⟨by omega, hb.2, by omega⟩

/-- Witness for C10 at an out-of-range sample 2 (clamped to 1, scaled to
32767). -/
theorem C10_pcm_range_witness :
    (32767 : ℚ) ∈ floatToPcm16 [2] ∧
    (-32767 ≤ toInt16 (32767 : ℚ) ∧ toInt16 (32767 : ℚ) ≤ 32767 ∧
      toInt16 (32767 : ℚ) ≠ -32768) :=
  ⟨by norm_num [floatToPcm16], C10_pcm_range [2] 32767 (by norm_num [floatToPcm16])⟩

/-! ## C2 — no append is sent unless the socket is open and not processing -/

lemma commitAudioBuffer_append_guard (s : AudioState) :
    (∃ a, WireMsg.append a ∈ (commitAudioBuffer s).msgs) →
    s.wsOpen = true ∧ s.isProcessingAudio = false := by
  intro ⟨a, ha⟩
  unfold commitAudioBuffer at ha
  split at ha
  · simp at ha
  · rename_i hguard
    push_neg at hguard
    exact ⟨Bool.not_eq_false _ ▸ Bool.of_not_eq_false hguard.1,
           Bool.of_not_eq_true hguard.2⟩

lemma detectSilence_append_guard (cfg : Config) (s : AudioState) (rms : ℚ) (now : ℕ)
    (h : ∃ a, WireMsg.append a ∈ (detectSilence cfg s rms now).msgs) :
    s.wsOpen = true := by
  obtain ⟨a, ha⟩ := h
  simp only [detectSilence] at ha
  split_ifs at ha <;> dsimp only at ha <;>
    first
      | exact (commitAudioBuffer_append_guard _ ⟨a, ha⟩).1
      | simp at ha

/-- C2: every send of an `input_audio_buffer.append` message — whether from
the low-level `sendAudioChunk`, the chunking timer tick, a commit flush, or
a processed audio frame — implies the WebSocket is open and the processing
flag is false in the state from which the send was issued. -/
theorem C2_append_only_when_open_not_processing (cfg : Config) (s : AudioState)
    (pcm : List ℚ) (f : Frame) (now : ℕ) :
    ((sendAudioChunk s pcm).2 ≠ [] →
      s.wsOpen = true ∧ s.isProcessingAudio = false) ∧
    ((∃ a, WireMsg.append a ∈ (sendChunkTick cfg s).2.1) →
      s.wsOpen = true ∧ s.isProcessingAudio = false) ∧
    ((∃ a, WireMsg.append a ∈ (commitAudioBuffer s).msgs) →
      s.wsOpen = true ∧ s.isProcessingAudio = false) ∧
    ((∃ a, WireMsg.append a ∈ (onAudioFrame cfg s f now).msgs) →
      s.wsOpen = true ∧ s.isProcessingAudio = false) := by
  refine ⟨?_, ?_, commitAudioBuffer_append_guard s, ?_⟩
  · intro h
    rw [sendAudioChunk_msgs] at h
    rcases hws : s.wsOpen with _ | _ <;> rcases hp : s.isProcessingAudio with _ | _ <;>
      simp [hws, hp] at h ⊢
  · intro ⟨a, ha⟩
    unfold sendChunkTick at ha
    split at ha
    · rename_i hrec
      dsimp only at ha
      split at ha
      · rename_i hcond
        rw [sendAudioChunk_msgs] at ha
        split at ha
        · simp at ha
        · rename_i hguard
          push_neg at hguard
          exact ⟨Bool.not_eq_false _ ▸ Bool.of_not_eq_false hguard.1,
                 Bool.of_not_eq_true hguard.2⟩
      · simp at ha
    · simp at ha
  · intro ⟨a, ha⟩
    unfold onAudioFrame at ha
    split at ha
    · rename_i hgate
      refine ⟨?_, hgate.2⟩
      refine detectSilence_append_guard cfg s f.rms now ⟨a, ?_⟩
      simp only [processAudioData] at ha
      split at ha <;> simpa using ha
    · simp at ha

/-- Witness for C2 exercising the `sendAudioChunk` conjunct at a
connected, non-processing state. -/
theorem C2_append_only_when_open_not_processing_witness :
    baseState.wsOpen = true ∧ baseState.isProcessingAudio = false :=
  (C2_append_only_when_open_not_processing baseConfig baseState [0] ⟨0, []⟩ 0).1
    (by decide)

/-! ## C8 — committing with an empty buffer is a warning-level no-op -/

/-- C8: a commit request arriving while the local buffer is empty changes
no state, sends nothing over the wire, and produces only warning-level log
output (and at least one such entry). -/
theorem C8_empty_commit_noop (s : AudioState) (hbuf : s.audioBuffer = []) :
    (commitAudioBuffer s).state = s ∧
    (commitAudioBuffer s).msgs = [] ∧
    (commitAudioBuffer s).logs ≠ [] ∧
    ∀ l ∈ (commitAudioBuffer s).logs, l.type = LogType.warning := by
  unfold commitAudioBuffer
  split
  · simp
  · split
    · simp
    · rename_i hlen
      simp [hbuf] at hlen

/-- Witness for C8 at the connected empty-buffer base state. -/
theorem C8_empty_commit_noop_witness :
    (commitAudioBuffer baseState).state = baseState ∧
    (commitAudioBuffer baseState).msgs = [] ∧
    (commitAudioBuffer baseState).logs ≠ [] ∧
    ∀ l ∈ (commitAudioBuffer baseState).logs, l.type = LogType.warning :=
  C8_empty_commit_noop baseState rfl

/-! ## C1 — frames are NOT accumulated while sleeping or processing

The claim says accumulation continues during `RecordingSleeping` and
`Processing` and only transmission is suspended.  The code does the
opposite: `processAudioData` returns before the conversion loop whenever
`isSleepingRef` or `isProcessingAudioRef` is set (line 216, comment
"Skip audio buffering if in sleep mode or processing mode"), and while
processing the worklet gate (line 488) does not even call
`processAudioData`. -/

/-- C1 counterexample: a silent frame of three zero samples arriving while
sleeping leaves the PCM buffer empty, although its conversion is
nonempty — the samples were dropped, not appended. -/
theorem C1_counterexample_sleeping_frame_dropped :
    (processAudioData baseConfig { baseState with isSleeping := true }
        ⟨0, [0, 0, 0]⟩ 0).state.audioBuffer = [] ∧
    floatToPcm16 ([0, 0, 0] : List ℚ) ≠ [] := by
  constructor
  · simp only [processAudioData, detectSilence]
    norm_num [baseConfig, baseState, slideWindow, silenceDetectionWindow, setSleeping]
  · simp [floatToPcm16]

/-- C1 (amended): a frame's samples are appended to the PCM buffer only
when, after silence detection, the client is neither sleeping nor
processing; while sleeping the frame is analyzed but its samples are
discarded, and while processing frames bypass `processAudioData`
entirely — accumulation, not just transmission, is suspended. -/
theorem C1_amended_no_accumulation_when_sleeping_or_processing
    (cfg : Config) (s : AudioState) (f : Frame) (now : ℕ) :
    ((processAudioData cfg s f now).state.audioBuffer =
      (if (detectSilence cfg s f.rms now).state.isSleeping = true ∨
          (detectSilence cfg s f.rms now).state.isProcessingAudio = true
       then (detectSilence cfg s f.rms now).state.audioBuffer
       else (detectSilence cfg s f.rms now).state.audioBuffer ++ floatToPcm16 f.samples)) ∧
    (s.isProcessingAudio = true →
      onAudioFrame cfg s f now = ⟨s, [], []⟩) := by
  constructor
  · unfold processAudioData
    split <;> rename_i h
    · rw [if_pos h]
    · rw [if_neg h]
  · intro h
    unfold onAudioFrame
    rw [if_neg]
    simp [h]

/-- Witness for C1's amended theorem: while processing, a delivered frame
is ignored outright. -/
theorem C1_amended_witness :
    onAudioFrame baseConfig { baseState with isProcessingAudio := true }
        ⟨0, [0, 0, 0]⟩ 0 =
      ⟨{ baseState with isProcessingAudio := true }, [], []⟩ :=
  (C1_amended_no_accumulation_when_sleeping_or_processing baseConfig
    { baseState with isProcessingAudio := true } ⟨0, [0, 0, 0]⟩ 0).2 rfl

/-! ## C5 — clearing an empty buffer is NOT a warning-free-no-op

The claim (spec §8 scenario) expects a warning log and no wire message.
`clearAudioBuffer` (lines 664-684) has no emptiness check at all: while
connected it always sends `input_audio_buffer.clear` and logs at info
level; while disconnected it silently does nothing. -/

/-- C5 counterexample: a clear request at a connected state with an empty
buffer (reachable: the Clear button is enabled while Processing even with
an empty buffer) sends a clear message over the wire and logs only
info-level entries — no warning is produced. -/
theorem C5_counterexample_empty_clear_sends :
    (clearAudioBuffer { baseState with isProcessingAudio := true }).msgs =
      [WireMsg.clear] ∧
    (clearAudioBuffer { baseState with isProcessingAudio := true }).logs ≠ [] ∧
    ∀ l ∈ (clearAudioBuffer { baseState with isProcessingAudio := true }).logs,
      l.type ≠ LogType.warning := by
  refine ⟨rfl, by simp [clearAudioBuffer, setProcessing, baseState], ?_⟩
  simp [clearAudioBuffer, setProcessing, baseState]

/-- C5 (amended): a clear request while disconnected is silently ignored
(no message, no log); while connected — empty buffer or not — it resets
the buffer and the speech-seen flag, exits processing mode if active,
sends exactly one clear message, and logs only info-level entries, the
first being "Audio buffer cleared". -/
theorem C5_amended_clear_behavior (s : AudioState) :
    (s.wsOpen = false → clearAudioBuffer s = ⟨s, [], []⟩) ∧
    (s.wsOpen = true →
      (clearAudioBuffer s).msgs = [WireMsg.clear] ∧
      (clearAudioBuffer s).state.audioBuffer = [] ∧
      (clearAudioBuffer s).state.hasSpeechInBuffer = false ∧
      (clearAudioBuffer s).state.isProcessingAudio = false ∧
      (clearAudioBuffer s).logs.head? =
        some ⟨"Audio buffer cleared", LogType.info⟩ ∧
      ∀ l ∈ (clearAudioBuffer s).logs, l.type = LogType.info) := by
  constructor
  · intro h
    unfold clearAudioBuffer
    rw [if_pos h]
  · intro h
    unfold clearAudioBuffer
    rw [if_neg (by simp [h])]
    dsimp only
    split <;> rename_i hp
    · simp [setProcessing, hp]
    · simp at hp
      simp [hp]

/-- Witness for C5's amended theorem at the connected base state. -/
theorem C5_amended_witness :
    (clearAudioBuffer baseState).msgs = [WireMsg.clear] ∧
    (clearAudioBuffer baseState).state.audioBuffer = [] ∧
    (clearAudioBuffer baseState).state.hasSpeechInBuffer = false ∧
    (clearAudioBuffer baseState).state.isProcessingAudio = false ∧
    (clearAudioBuffer baseState).logs.head? =
      some ⟨"Audio buffer cleared", LogType.info⟩ ∧
    ∀ l ∈ (clearAudioBuffer baseState).logs, l.type = LogType.info :=
  (C5_amended_clear_behavior baseState).2 rfl

/-! ## C6 — disconnect does NOT clear the session identity

The claim says the RemoteSession identity (session id and model name) is
cleared on disconnect.  Neither `disconnect` (lines 379-396) nor the
`onclose` handler (lines 362-367) touches `sessionIdRef`/`sessionInfo`:
only the connection/recording/processing (and for `disconnect` also
sleeping) flags are reset. -/

lemma setProcessing_false_state (s : AudioState) :
    (setProcessing s false).1 = { s with isProcessingAudio := false } := by
  unfold setProcessing
  split
  · rfl
  · rename_i h
    simp only [ne_eq, not_not] at h
    cases s
    simp_all

lemma setSleeping_false_state (s : AudioState) :
    (setSleeping s false).1 = { s with isSleeping := false } := by
  unfold setSleeping
  split
  · rfl
  · rename_i h
    simp only [ne_eq, not_not] at h
    cases s
    simp_all

lemma disconnect_state (s : AudioState) :
    (disconnect s).1 = { s with wsOpen := false, isRecording := false,
                                isProcessingAudio := false, isSleeping := false } := by
  unfold disconnect
  simp only [setProcessing_false_state, setSleeping_false_state]

lemma onConnectionClose_state (s : AudioState) :
    (onConnectionClose s).1 = { s with wsOpen := false, isRecording := false,
                                       isProcessingAudio := false } := by
  unfold onConnectionClose
  simp only [setProcessing_false_state]

/-- C6 counterexample: after an explicit disconnect, and likewise after
connection loss, from a state holding a session identity, the identity is
still present — it is not cleared. -/
theorem C6_counterexample_session_retained :
    (disconnect { baseState with
        sessionInfo := some ("sess-1", "Whisper") }).1.sessionInfo =
      some ("sess-1", "Whisper") ∧
    (onConnectionClose { baseState with
        sessionInfo := some ("sess-1", "Whisper") }).1.sessionInfo =
      some ("sess-1", "Whisper") := by
  rw [disconnect_state, onConnectionClose_state]
  exact ⟨rfl, rfl⟩

/-- C6 (amended): on explicit disconnect or connection loss the client
returns to the disconnected state (socket closed, recording stopped,
processing cleared; `disconnect` also clears sleeping) and no reconnect
is initiated, but the RemoteSession identity (session id and model name)
is retained unchanged until a later `session.created` overwrites it. -/
theorem C6_amended_disconnect_behavior (s : AudioState) :
    (disconnect s).1.wsOpen = false ∧
    (disconnect s).1.isRecording = false ∧
    (disconnect s).1.isProcessingAudio = false ∧
    (disconnect s).1.isSleeping = false ∧
    (disconnect s).1.sessionInfo = s.sessionInfo ∧
    (onConnectionClose s).1.wsOpen = false ∧
    (onConnectionClose s).1.isRecording = false ∧
    (onConnectionClose s).1.isProcessingAudio = false ∧
    (onConnectionClose s).1.sessionInfo = s.sessionInfo := by
  rw [disconnect_state, onConnectionClose_state]
  exact ⟨rfl, rfl, rfl, rfl, rfl, rfl, rfl, rfl, rfl⟩

/-! ## C4 — published latency is NOT (now − commit time)

`handleServerMessage` captures `startTime = Date.now()` at the top of the
handler (line 237) and, on `response.done`, publishes
`Date.now() − startTime` (line 268): both timestamps are taken inside the
same handler invocation, so the published "latency" is the handler's own
execution time (≈0 ms) and never references the time the commit was sent.
The code's own latency counters and "Avg Latency" display make the spec's
reading (now − commit time) the clear intent; the code is a slip. -/

/-! ## C3 — auto-commit trigger conditions; once per episode only when
the triggered commit succeeds

The claim's unconditional "fires at most once per speech episode" fails:
when the auto-commit branch fires but `commitAudioBuffer` no-ops at its
guards (socket not open, or the local buffer drained to exactly empty by
the chunk timer), `hasSpeechInBuffer` is never cleared and processing
mode is never entered, so the very same trigger condition holds again on
every subsequent silent frame of the episode. -/

lemma commitAudioBuffer_enters_processing (s : AudioState)
    (hws : s.wsOpen = true) (hp : s.isProcessingAudio = false)
    (hb : s.audioBuffer ≠ []) :
    (commitAudioBuffer s).state.isProcessingAudio = true ∧
    (commitAudioBuffer s).state.hasSpeechInBuffer = false := by
  unfold commitAudioBuffer
  rw [if_neg (by simp [hws, hp])]
  rw [if_neg (by simpa using hb)]
  dsimp only
  refine ⟨?_, rfl⟩
  simp [setProcessing, sendAudioChunk, hws, hp]

/-- Evaluation of `detectSilence` when the auto-commit branch fires but
the local buffer is empty: the fire happens, the commit returns at its
empty-buffer guard, and the state is unchanged except for the window —
in particular neither the processing flag nor the speech-seen flag is
touched. -/
lemma detectSilence_fired_noop (cfg : Config) (s : AudioState) (rms : ℚ) (now : ℕ)
    (hws : s.wsOpen = true) (hp : s.isProcessingAudio = false)
    (hbuf : s.audioBuffer = [])
    (havg : (slideWindow s.silenceBuffer rms).sum /
        ((slideWindow s.silenceBuffer rms).length : ℚ) < cfg.silenceThreshold)
    (hdelay : 0 < cfg.autoCommitDelay)
    (htsls : (cfg.autoCommitDelay : ℤ) ≤ (now : ℤ) - (s.lastSpeechTime : ℤ))
    (hspeech : s.hasSpeechInBuffer = true) :
    (detectSilence cfg s rms now).autoCommitFired = true ∧
    (detectSilence cfg s rms now).state =
      { s with silenceBuffer := slideWindow s.silenceBuffer rms } ∧
    (detectSilence cfg s rms now).msgs = [] := by
  simp only [detectSilence]
  rw [if_pos havg, if_pos ⟨hdelay, htsls, hspeech, hp⟩]
  unfold commitAudioBuffer
  rw [if_neg (by simp [hws, hp]), if_pos (by simp [hbuf])]
  exact ⟨rfl, rfl, rfl⟩

/-- C3 counterexample: with speech seen, an open socket and an empty
local buffer (reachable: the chunk timer drains the buffer in exact
4000-sample chunks), a silent frame at t = 2000 ms fires auto-commit, the
commit no-ops, processing mode is not entered and the speech-seen flag
survives — and the next silent frame of the very same speech episode, at
t = 2500 ms, fires auto-commit again.  So auto-commit does not fire at
most once per speech episode. -/
theorem C3_counterexample_repeated_fire :
    (detectSilence baseConfig { baseState with hasSpeechInBuffer := true }
        0 2000).autoCommitFired = true ∧
    (detectSilence baseConfig { baseState with hasSpeechInBuffer := true }
        0 2000).state.isProcessingAudio = false ∧
    (detectSilence baseConfig { baseState with hasSpeechInBuffer := true }
        0 2000).state.hasSpeechInBuffer = true ∧
    (detectSilence baseConfig
        (detectSilence baseConfig { baseState with hasSpeechInBuffer := true }
          0 2000).state 0 2500).autoCommitFired = true := by
  obtain ⟨hf1, hs1, -⟩ := detectSilence_fired_noop baseConfig
      { baseState with hasSpeechInBuffer := true } 0 2000 rfl rfl rfl
      (by norm_num [slideWindow, baseState, baseConfig, silenceDetectionWindow])
      (by norm_num [baseConfig]) (by norm_num [baseConfig, baseState]) rfl
  refine ⟨hf1, by rw [hs1]; rfl, by rw [hs1], ?_⟩
  rw [hs1]
  exact (detectSilence_fired_noop baseConfig _ 0 2500 rfl rfl rfl
      (by norm_num [slideWindow, baseState, baseConfig, silenceDetectionWindow])
      (by norm_num [baseConfig]) (by norm_num [baseConfig, baseState]) rfl).1

/-- C3 (amended): the auto-commit branch of `detectSilence` is taken
exactly when the frame is classified silent, the configured delay is
strictly positive, time since last speech has reached the delay, speech
has been seen in the current buffer, and the client is not already
processing (first conjunct; the second restates the blocking while
processing).  When it is taken AND the commit can actually go out
(socket open, buffer nonempty), the resulting state is in processing
mode with the speech-seen flag cleared (third conjunct), and while
processing mode persists a delivered frame is ignored outright, so no
further auto-commit evaluation occurs until processing is exited (fourth
conjunct): at most one successful auto-commit per speech episode.  When
the triggered commit no-ops instead, the speech-seen flag survives and
the trigger can fire again within the same episode (see the
counterexample). -/
theorem C3_auto_commit_fire_conditions (cfg : Config) (s : AudioState)
    (f : Frame) (now : ℕ) :
    ((detectSilence cfg s f.rms now).autoCommitFired = true ↔
      ((detectSilence cfg s f.rms now).isSilent = true ∧
       0 < cfg.autoCommitDelay ∧
       (cfg.autoCommitDelay : ℤ) ≤ (now : ℤ) - (s.lastSpeechTime : ℤ) ∧
       s.hasSpeechInBuffer = true ∧
       s.isProcessingAudio = false)) ∧
    (s.isProcessingAudio = true →
      (detectSilence cfg s f.rms now).autoCommitFired = false) ∧
    ((detectSilence cfg s f.rms now).autoCommitFired = true →
      s.wsOpen = true → s.audioBuffer ≠ [] →
      (detectSilence cfg s f.rms now).state.isProcessingAudio = true ∧
      (detectSilence cfg s f.rms now).state.hasSpeechInBuffer = false) ∧
    (s.isProcessingAudio = true →
      onAudioFrame cfg s f now = ⟨s, [], []⟩) := by
  refine ⟨?_, ?_, ?_, ?_⟩
  · simp only [detectSilence]
    split_ifs <;> simp_all
  · intro h
    simp only [detectSilence]
    split_ifs <;> simp_all
  · intro hf hws hb
    simp only [detectSilence] at hf ⊢
    split_ifs at hf ⊢
    exact commitAudioBuffer_enters_processing _ hws (by simp_all) hb
  · intro h
    unfold onAudioFrame
    rw [if_neg]
    simp [h]

/-- Witness for C3's amended theorem exercising the third conjunct: a
silent frame at t = 2000 ms with speech seen, a nonempty buffer and an
open socket enters processing and clears the speech-seen flag. -/
theorem C3_auto_commit_fire_conditions_witness :
    (detectSilence baseConfig
        { baseState with hasSpeechInBuffer := true, audioBuffer := [100] }
        0 2000).state.isProcessingAudio = true ∧
    (detectSilence baseConfig
        { baseState with hasSpeechInBuffer := true, audioBuffer := [100] }
        0 2000).state.hasSpeechInBuffer = false := by
  refine (C3_auto_commit_fire_conditions baseConfig
      { baseState with hasSpeechInBuffer := true, audioBuffer := [100] }
      ⟨0, [-2]⟩ 2000).2.2.1 ?_ rfl (by simp)
  have hiff := (C3_auto_commit_fire_conditions baseConfig
      { baseState with hasSpeechInBuffer := true, audioBuffer := [100] }
      ⟨0, [-2]⟩ 2000).1
  refine hiff.mpr ⟨?_, by norm_num [baseConfig],
    by norm_num [baseConfig, baseState], rfl, rfl⟩
  simp only [detectSilence]
  rw [if_pos (by norm_num [slideWindow, baseState, baseConfig, silenceDetectionWindow])]
  split_ifs <;> rfl

/-- C4: at a failing input where the commit was sent at t = 1000 ms and
the `response.done` handler runs at t = 5000 ms, the published latency
increment is `5000 − 5000 = 0`, while the claim requires
`now − commit time = 5000 − 1000 = 4000`. -/
theorem C4_latency_measured_from_handler_entry :
    (handleServerMessage { baseState with isProcessingAudio := true }
        (ServerMsg.responseDone none) 5000 5000).1.latencySum = 0 ∧
    (handleServerMessage { baseState with isProcessingAudio := true }
        (ServerMsg.responseDone none) 5000 5000).1.latencyCount = 1 ∧
    5000 - (1000 : ℕ) = 4000 ∧ (0 : ℕ) ≠ 4000 := by
  refine ⟨?_, ?_, rfl, by omega⟩ <;>
    simp [handleServerMessage, setProcessing, baseState]

/-! ## C7 — exactly one transition into sleep per sustained silence -/

lemma sum_lt_mul_length (l : List ℚ) (T : ℚ) (hne : l ≠ [])
    (h : ∀ x ∈ l, x < T) : l.sum < T * (l.length : ℚ) := by
  induction l with
  | nil => exact absurd rfl hne
  | cons a t ih =>
    rcases eq_or_ne t [] with rfl | ht
    · simpa using h a (by simp)
    · have h1 := ih ht (fun x hx => h x (List.mem_cons_of_mem a hx))
      have ha := h a (List.mem_cons_self a t)
      simp only [List.sum_cons, List.length_cons]
      push_cast
      linarith

lemma avg_lt_of_forall_lt (l : List ℚ) (T : ℚ) (hne : l ≠ [])
    (h : ∀ x ∈ l, x < T) : l.sum / (l.length : ℚ) < T := by
  have hlen : (0 : ℚ) < (l.length : ℚ) := by
    exact_mod_cast List.length_pos.mpr hne
  rw [div_lt_iff₀ hlen]
  exact sum_lt_mul_length l T hne h

lemma setSleeping_true_state (s : AudioState) :
    (setSleeping s true).1 = { s with isSleeping := true } := by
  unfold setSleeping
  split
  · rfl
  · rename_i h
    simp only [ne_eq, not_not] at h
    cases s
    simp_all

lemma setSleeping_true_logs (s : AudioState) :
    (setSleeping s true).2 =
      (if s.isSleeping = false
       then [⟨"Entering sleep mode due to prolonged silence", LogType.info⟩]
       else []) := by
  rcases hs : s.isSleeping with _ | _ <;> simp [setSleeping, hs]

/-- Closed form of `detectSilence` on a silent frame with no speech seen:
no auto-commit, no wire message, the window is updated, and the sleep
transition (with its log entry) happens exactly when the wake timeout has
elapsed and the client was not already sleeping. -/
lemma detectSilence_silent_no_speech (cfg : Config) (s : AudioState) (rms : ℚ) (now : ℕ)
    (hspeech : s.hasSpeechInBuffer = false)
    (havg : (slideWindow s.silenceBuffer rms).sum /
        ((slideWindow s.silenceBuffer rms).length : ℚ) < cfg.silenceThreshold) :
    (detectSilence cfg s rms now).state =
      (if (1000 : ℤ) ≤ (now : ℤ) - (s.lastSpeechTime : ℤ)
       then { s with silenceBuffer := slideWindow s.silenceBuffer rms,
                     isSleeping := true }
       else { s with silenceBuffer := slideWindow s.silenceBuffer rms }) ∧
    (detectSilence cfg s rms now).logs =
      (if s.isSleeping = false ∧ (1000 : ℤ) ≤ (now : ℤ) - (s.lastSpeechTime : ℤ)
       then [⟨"Entering sleep mode due to prolonged silence", LogType.info⟩]
       else []) ∧
    (detectSilence cfg s rms now).msgs = [] ∧
    (detectSilence cfg s rms now).autoCommitFired = false := by
  simp only [detectSilence]
  rw [if_pos havg]
  rw [if_neg (fun h => by simp [hspeech] at h)]
  by_cases h1000 : (1000 : ℤ) ≤ (now : ℤ) - (s.lastSpeechTime : ℤ)
  · rw [if_pos ⟨h1000, hspeech⟩, if_pos h1000]
    refine ⟨?_, ?_, rfl, rfl⟩
    · rw [show (⟨(setSleeping { s with silenceBuffer := slideWindow s.silenceBuffer rms }
          true).1, [], (setSleeping { s with silenceBuffer := slideWindow s.silenceBuffer rms }
          true).2, false, true, (slideWindow s.silenceBuffer rms).sum /
          ((slideWindow s.silenceBuffer rms).length : ℚ),
          (now : ℤ) - (s.lastSpeechTime : ℤ)⟩ : DetectOut).state =
        (setSleeping { s with silenceBuffer := slideWindow s.silenceBuffer rms } true).1
        from rfl]
      rw [setSleeping_true_state]
    · rw [show (⟨(setSleeping { s with silenceBuffer := slideWindow s.silenceBuffer rms }
          true).1, [], (setSleeping { s with silenceBuffer := slideWindow s.silenceBuffer rms }
          true).2, false, true, (slideWindow s.silenceBuffer rms).sum /
          ((slideWindow s.silenceBuffer rms).length : ℚ),
          (now : ℤ) - (s.lastSpeechTime : ℤ)⟩ : DetectOut).logs =
        (setSleeping { s with silenceBuffer := slideWindow s.silenceBuffer rms } true).2
        from rfl]
      rw [setSleeping_true_logs]
      by_cases hs : s.isSleeping = false
      · rw [if_pos hs, if_pos ⟨hs, h1000⟩]
      · rw [if_neg hs, if_neg (fun hc => hs hc.1)]
  · rw [if_neg (fun hc => h1000 hc.1), if_neg h1000,
        if_neg (fun hc => h1000 hc.2)]
    exact ⟨rfl, rfl, rfl, rfl⟩

lemma processAudioData_isSleeping (cfg : Config) (s : AudioState) (f : Frame) (now : ℕ) :
    (processAudioData cfg s f now).state.isSleeping =
      (detectSilence cfg s f.rms now).state.isSleeping := by
  simp only [processAudioData]; split <;> rfl

lemma processAudioData_isRecording (cfg : Config) (s : AudioState) (f : Frame) (now : ℕ) :
    (processAudioData cfg s f now).state.isRecording =
      (detectSilence cfg s f.rms now).state.isRecording := by
  simp only [processAudioData]; split <;> rfl

lemma processAudioData_isProcessingAudio (cfg : Config) (s : AudioState) (f : Frame) (now : ℕ) :
    (processAudioData cfg s f now).state.isProcessingAudio =
      (detectSilence cfg s f.rms now).state.isProcessingAudio := by
  simp only [processAudioData]; split <;> rfl

lemma processAudioData_hasSpeechInBuffer (cfg : Config) (s : AudioState) (f : Frame) (now : ℕ) :
    (processAudioData cfg s f now).state.hasSpeechInBuffer =
      (detectSilence cfg s f.rms now).state.hasSpeechInBuffer := by
  simp only [processAudioData]; split <;> rfl

lemma processAudioData_lastSpeechTime (cfg : Config) (s : AudioState) (f : Frame) (now : ℕ) :
    (processAudioData cfg s f now).state.lastSpeechTime =
      (detectSilence cfg s f.rms now).state.lastSpeechTime := by
  simp only [processAudioData]; split <;> rfl

lemma processAudioData_silenceBuffer (cfg : Config) (s : AudioState) (f : Frame) (now : ℕ) :
    (processAudioData cfg s f now).state.silenceBuffer =
      (detectSilence cfg s f.rms now).state.silenceBuffer := by
  simp only [processAudioData]; split <;> rfl

lemma processAudioData_logs (cfg : Config) (s : AudioState) (f : Frame) (now : ℕ) :
    (processAudioData cfg s f now).logs = (detectSilence cfg s f.rms now).logs := by
  simp only [processAudioData]; split <;> rfl

/-- One silent frame under the `SilentRun` invariant: the invariant is
preserved, the speech clock is untouched, sleep mode is entered exactly
when the wake timeout elapsed, and the "Entering sleep mode" log line is
emitted exactly on the false→true transition. -/
lemma silent_step (cfg : Config) (s : AudioState) (f : Frame) (now : ℕ)
    (inv : SilentRun cfg s) (hrms : f.rms < cfg.silenceThreshold) :
    SilentRun cfg (onAudioFrame cfg s f now).state ∧
    (onAudioFrame cfg s f now).state.lastSpeechTime = s.lastSpeechTime ∧
    ((onAudioFrame cfg s f now).state.isSleeping =
      (s.isSleeping || decide ((1000 : ℤ) ≤ (now : ℤ) - (s.lastSpeechTime : ℤ)))) ∧
    countSleepEntries (onAudioFrame cfg s f now).logs =
      (if s.isSleeping = false ∧ (1000 : ℤ) ≤ (now : ℤ) - (s.lastSpeechTime : ℤ)
       then 1 else 0) := by
  obtain ⟨hrec, hproc, hspeech, hwin⟩ := inv
  have hall : ∀ x ∈ slideWindow s.silenceBuffer f.rms, x < cfg.silenceThreshold := by
    intro x hx
    have hx0 : x ∈ s.silenceBuffer ++ [f.rms] := by
      unfold slideWindow at hx
      split at hx
      · exact List.mem_of_mem_tail hx
      · exact hx
    rcases List.mem_append.mp hx0 with h | h
    · exact hwin x h
    · rw [List.mem_singleton.mp h]; exact hrms
  have hne : slideWindow s.silenceBuffer f.rms ≠ [] := by
    unfold slideWindow
    split
    · rename_i hlen
      intro hnil
      have hl := congrArg List.length hnil
      rw [List.length_tail, List.length_append, List.length_singleton] at hl
      simp only [List.length_nil] at hl
      simp [silenceDetectionWindow, List.length_append] at hlen
      omega
    · simp
  have havg := avg_lt_of_forall_lt _ _ hne hall
  obtain ⟨hstate, hlogs, -, -⟩ :=
    detectSilence_silent_no_speech cfg s f.rms now hspeech havg
  have hgate : s.isRecording = true ∧ s.isProcessingAudio = false := ⟨hrec, hproc⟩
  unfold onAudioFrame
  rw [if_pos hgate]
  refine ⟨⟨?_, ?_, ?_, ?_⟩, ?_, ?_, ?_⟩
  · rw [processAudioData_isRecording, hstate]
    split <;> exact hrec
  · rw [processAudioData_isProcessingAudio, hstate]
    split <;> exact hproc
  · rw [processAudioData_hasSpeechInBuffer, hstate]
    split <;> exact hspeech
  · intro x hx
    rw [processAudioData_silenceBuffer, hstate] at hx
    refine hall x ?_
    revert hx
    split <;> (intro hx; exact hx)
  · rw [processAudioData_lastSpeechTime, hstate]
    split <;> rfl
  · rw [processAudioData_isSleeping, hstate]
    by_cases h1000 : (1000 : ℤ) ≤ (now : ℤ) - (s.lastSpeechTime : ℤ)
    · rw [if_pos h1000]
      simp [h1000]
    · rw [if_neg h1000]
      simp [h1000]
  · rw [processAudioData_logs, hlogs]
    by_cases hc : s.isSleeping = false ∧
        (1000 : ℤ) ≤ (now : ℤ) - (s.lastSpeechTime : ℤ)
    · rw [if_pos hc, if_pos hc]
      simp [countSleepEntries]
    · rw [if_neg hc, if_neg hc]
      simp [countSleepEntries]

lemma countSleepEntries_append (a b : List LogEntry) :
    countSleepEntries (a ++ b) = countSleepEntries a + countSleepEntries b := by
  simp [countSleepEntries, List.filter_append]

/-- Over a run of purely-silent frames, the number of transitions into
sleep mode is 1 when some frame reaches the wake timeout (and the run did
not start asleep), else 0. -/
lemma silent_run_count (cfg : Config) (frames : List (Frame × ℕ)) (s : AudioState)
    (inv : SilentRun cfg s)
    (hfr : ∀ p ∈ frames, p.1.rms < cfg.silenceThreshold) :
    countSleepEntries (runFrames cfg s frames).2 =
      (if s.isSleeping = false ∧
          ∃ p ∈ frames, (1000 : ℤ) ≤ (p.2 : ℤ) - (s.lastSpeechTime : ℤ)
       then 1 else 0) := by
  induction frames generalizing s with
  | nil => simp [runFrames, countSleepEntries]
  | cons p rest ih =>
    obtain ⟨f, now⟩ := p
    obtain ⟨inv', hlast, hsleep, hcount⟩ :=
      silent_step cfg s f now inv (hfr (f, now) (List.mem_cons_self _ _))
    have ihr := ih (onAudioFrame cfg s f now).state inv'
      (fun q hq => hfr q (List.mem_cons_of_mem _ hq))
    rw [hlast] at ihr
    simp only [runFrames]
    rw [countSleepEntries_append, hcount, ihr, hsleep]
    by_cases hs : s.isSleeping = false
    · by_cases ht : (1000 : ℤ) ≤ (now : ℤ) - (s.lastSpeechTime : ℤ)
      · rw [if_pos ⟨hs, ht⟩, if_neg (by simp [ht]),
            if_pos ⟨hs, ⟨(f, now), List.mem_cons_self _ _, ht⟩⟩]
      · rw [if_neg (fun hc => ht hc.2)]
        by_cases hex : ∃ q ∈ rest, (1000 : ℤ) ≤ (q.2 : ℤ) - (s.lastSpeechTime : ℤ)
        · have hexc : ∃ q ∈ (f, now) :: rest,
              (1000 : ℤ) ≤ (q.2 : ℤ) - (s.lastSpeechTime : ℤ) := by
            obtain ⟨q, hq, hP⟩ := hex
            exact ⟨q, List.mem_cons_of_mem _ hq, hP⟩
          rw [if_pos ⟨by simp [hs, ht], hex⟩, if_pos ⟨hs, hexc⟩]
        · rw [if_neg (fun hc => hex hc.2)]
          rw [if_neg (fun hc => ?_)]
          obtain ⟨q, hq, hP⟩ := hc.2
          rcases List.mem_cons.mp hq with rfl | hq'
          · exact ht hP
          · exact hex ⟨q, hq', hP⟩
    · have hs' : s.isSleeping = true := by
        rcases hb : s.isSleeping with _ | _ <;> simp_all
      rw [if_neg (fun hc => hs hc.1), if_neg (by simp [hs']),
          if_neg (fun hc => hs hc.1)]

/-- C7: for every silence threshold and every sequence of timestamped
per-frame energies whose smoothed window stays below the threshold, with
no speech flagged and recording active, a run that reaches the 1000 ms
wake timeout produces exactly one transition into sleep mode — not one
per silent frame: once sleeping, further sleep requests are no-ops and
emit no further transition. -/
theorem C7_exactly_one_sleep_transition (cfg : Config) (s : AudioState)
    (frames : List (Frame × ℕ))
    (hrec : s.isRecording = true) (hproc : s.isProcessingAudio = false)
    (hspeech : s.hasSpeechInBuffer = false) (hsleep : s.isSleeping = false)
    (hwin : ∀ x ∈ s.silenceBuffer, x < cfg.silenceThreshold)
    (hfr : ∀ p ∈ frames, p.1.rms < cfg.silenceThreshold)
    (hlong : ∃ p ∈ frames, (1000 : ℤ) ≤ (p.2 : ℤ) - (s.lastSpeechTime : ℤ)) :
    countSleepEntries (runFrames cfg s frames).2 = 1 := by
  rw [silent_run_count cfg frames s ⟨hrec, hproc, hspeech, hwin⟩ hfr]
  rw [if_pos ⟨hsleep, hlong⟩]

/-- Witness for C7: three silent frames (the last two past the wake
timeout) produce exactly one sleep transition. -/
theorem C7_exactly_one_sleep_transition_witness :
    countSleepEntries (runFrames baseConfig baseState
      [(⟨0, []⟩, 500), (⟨0, []⟩, 2000), (⟨0, []⟩, 3000)]).2 = 1 := by
  refine C7_exactly_one_sleep_transition baseConfig baseState _ rfl rfl rfl rfl
    (by simp [baseState]) ?_ ?_
  · intro p hp
    simp only [List.mem_cons] at hp
    rcases hp with rfl | rfl | rfl | h
    · norm_num [baseConfig]
    · norm_num [baseConfig]
    · norm_num [baseConfig]
    · simp at h
  · exact ⟨(⟨0, []⟩, 2000), by simp, by norm_num [baseState]⟩

end QuNebulea
